import Mathlib

/-!
Shallow embedding of `src/color_analyzer.py` (color-analyzer repository).

The program decodes an image into an RGB pixel grid, classifies the skin
undertone by color-range masking and channel averages, and looks up a
color palette and outfit suggestions in static nested tables.

Pixels are triples of channel values; the grid is a list of rows, matching
the 2D numpy array.  Channel means are computed exactly in `ℚ` (the Python
code uses `np.mean`, a floating-point average; the spec notes rounding is
immaterial to the threshold comparisons, and the exact rational mean is the
faithful idealization).  Dictionary `.get` chains become association-list
lookups with the same defaults.
-/

namespace ColorAnalyzer

/-- A pixel with red, green and blue channel values (uint8 in the source,
modelled as `Nat`; the range checks of `cv2.inRange` are kept literally,
including the vacuous `r ≤ 255` upper bound). -/
structure Pixel where
  r : Nat
  g : Nat
  b : Nat
deriving DecidableEq, Repr

/-- A decoded image: a 2D grid of pixels (list of rows). -/
abbrev Grid := List (List Pixel)

/-- Embeds the `cv2.inRange(img_rgb, lower_skin, upper_skin)` test for one
pixel: `lower_skin = [80, 50, 40]`, `upper_skin = [255, 200, 180]`, all
bounds inclusive, all three channels checked simultaneously. -/
def inSkinRange (p : Pixel) : Bool :=
  (80 ≤ p.r && p.r ≤ 255) && (50 ≤ p.g && p.g ≤ 200) && (40 ≤ p.b && p.b ≤ 180)

/-- Embeds `skin_pixels = img_rgb[skin_mask > 0]`: the pixels of the grid,
in row-major order, whose channels pass the skin-range mask. -/
def skinPixels (img : Grid) : List Pixel :=
  img.flatten.filter inSkinRange

/-- Embeds `avg_r = np.mean(skin_pixels[:, 0])` as an exact rational mean. -/
def avg_r (ps : List Pixel) : ℚ := ((ps.map Pixel.r).sum : ℚ) / ps.length

/-- Embeds `avg_g = np.mean(skin_pixels[:, 1])` as an exact rational mean. -/
def avg_g (ps : List Pixel) : ℚ := ((ps.map Pixel.g).sum : ℚ) / ps.length

/-- Embeds `avg_b = np.mean(skin_pixels[:, 2])` as an exact rational mean. -/
def avg_b (ps : List Pixel) : ℚ := ((ps.map Pixel.b).sum : ℚ) / ps.length

/-- Source constant: red must exceed blue by this amount for a warm undertone. -/
def WARM_THRESHOLD : ℚ := 10

/-- Source constant: blue must exceed red by this amount for a cool undertone. -/
def COOL_THRESHOLD : ℚ := 5

/-- Embeds `detect_undertone`.  The branch structure mirrors the Python
`if avg_r > avg_b + WARM_THRESHOLD: if avg_r > avg_g: return "warm"`,
`elif avg_b > avg_r + COOL_THRESHOLD: return "cool"`, final
`return "neutral"`: when the outer warm-margin test succeeds but the inner
`avg_r > avg_g` test fails, control falls to the final return (the `elif`
is not evaluated), yielding `"neutral"`. -/
def detect_undertone (img : Grid) : String :=
  let skin := skinPixels img
  if skin.length = 0 then "neutral"
  else
    if avg_r skin > avg_b skin + WARM_THRESHOLD then
      if avg_r skin > avg_g skin then "warm" else "neutral"
    else if avg_b skin > avg_r skin + COOL_THRESHOLD then "cool"
    else "neutral"

/-- A palette entry: a named color with a hex code. -/
structure PaletteColor where
  name : String
  hex : String
deriving DecidableEq, Repr

/-- The `palettes["neutral"]["subtle"]` list, also the fallback default of
`get_color_palette`. -/
def neutral_subtle_palette : List PaletteColor :=
  [⟨"Soft Taupe", "#B38B6D"⟩, ⟨"Sage", "#9DC183"⟩, ⟨"Dusty Rose", "#DCAE96"⟩,
   ⟨"Warm Gray", "#928E85"⟩, ⟨"Cream", "#FFFDD0"⟩, ⟨"Mauve", "#E0B0FF"⟩]

/-- The static `palettes` table of `get_color_palette`, keyed by undertone
then style. -/
def palettes : List (String × List (String × List PaletteColor)) :=
  [("warm",
    [("subtle",
      [⟨"Warm Beige", "#D4A574"⟩, ⟨"Olive Green", "#808000"⟩,
       ⟨"Terracotta", "#E2725B"⟩, ⟨"Warm Brown", "#8B4513"⟩,
       ⟨"Peach", "#FFDAB9"⟩, ⟨"Coral", "#FF7F50"⟩]),
     ("bold",
      [⟨"Burnt Orange", "#CC5500"⟩, ⟨"Golden Yellow", "#FFD700"⟩,
       ⟨"Rich Red", "#DC143C"⟩, ⟨"Forest Green", "#228B22"⟩,
       ⟨"Rust", "#B7410E"⟩, ⟨"Amber", "#FFBF00"⟩])]),
   ("cool",
    [("subtle",
      [⟨"Soft Pink", "#FFB6C1"⟩, ⟨"Powder Blue", "#B0E0E6"⟩,
       ⟨"Lavender", "#E6E6FA"⟩, ⟨"Cool Gray", "#A9A9A9"⟩,
       ⟨"Mint", "#98FF98"⟩, ⟨"Silver", "#C0C0C0"⟩]),
     ("bold",
      [⟨"Royal Blue", "#4169E1"⟩, ⟨"Magenta", "#FF00FF"⟩,
       ⟨"Purple", "#800080"⟩, ⟨"Emerald", "#50C878"⟩,
       ⟨"Fuchsia", "#FF00FF"⟩, ⟨"Navy", "#000080"⟩])]),
   ("neutral",
    [("subtle", neutral_subtle_palette),
     ("bold",
      [⟨"Teal", "#008080"⟩, ⟨"Burgundy", "#800020"⟩,
       ⟨"Deep Purple", "#6A0DAD"⟩, ⟨"Olive", "#808000"⟩,
       ⟨"Crimson", "#DC143C"⟩, ⟨"Jade", "#00A86B"⟩])])]

/-- Embeds `get_color_palette`:
`palettes.get(undertone, {}).get(style, palettes["neutral"]["subtle"])`. -/
def get_color_palette (undertone style : String) : List PaletteColor :=
  (((palettes.lookup undertone).getD []).lookup style).getD neutral_subtle_palette

/-- The generic default of `get_outfit_suggestions`. -/
def outfit_fallback : List String :=
  ["Classic white shirt with dark pants",
   "Navy blazer with neutral bottoms",
   "Black dress with colorful accessories"]

/-- The static `suggestions` table of `get_outfit_suggestions`, keyed by
undertone, then formality, then style. -/
def suggestions : List (String × List (String × List (String × List String))) :=
  [("warm",
    [("casual",
      [("subtle",
        ["Olive green t-shirt with beige chinos",
         "Terracotta sweater with brown jeans",
         "Peach blouse with warm brown pants"]),
       ("bold",
        ["Burnt orange hoodie with dark jeans",
         "Golden yellow shirt with rust-colored jacket",
         "Rich red top with forest green cardigan"])]),
     ("professional",
      [("subtle",
        ["Warm beige blazer with olive dress pants",
         "Terracotta button-up with brown suit",
         "Peach blouse with neutral skirt and warm brown accessories"]),
       ("bold",
        ["Golden yellow blouse with navy suit",
         "Burnt orange dress shirt with charcoal blazer",
         "Rich red suit jacket with amber accessories"])])]),
   ("cool",
    [("casual",
      [("subtle",
        ["Powder blue t-shirt with cool gray jeans",
         "Lavender sweater with silver accessories",
         "Soft pink top with mint green cardigan"]),
       ("bold",
        ["Royal blue hoodie with black jeans",
         "Magenta shirt with purple jacket",
         "Emerald green top with navy pants"])]),
     ("professional",
      [("subtle",
        ["Powder blue blouse with cool gray suit",
         "Lavender dress shirt with silver accessories",
         "Soft pink blazer with navy skirt"]),
       ("bold",
        ["Royal blue suit with white shirt",
         "Purple dress with magenta accessories",
         "Emerald blazer with navy dress pants"])])]),
   ("neutral",
    [("casual",
      [("subtle",
        ["Soft taupe sweater with sage green pants",
         "Dusty rose top with warm gray jeans",
         "Cream blouse with mauve cardigan"]),
       ("bold",
        ["Teal shirt with burgundy jacket",
         "Deep purple top with olive pants",
         "Jade green sweater with crimson accessories"])]),
     ("professional",
      [("subtle",
        ["Soft taupe suit with cream blouse",
         "Sage blazer with dusty rose accessories",
         "Warm gray suit with mauve shirt"]),
       ("bold",
        ["Teal blazer with burgundy dress pants",
         "Deep purple suit with jade accessories",
         "Olive suit with crimson blouse"])])])]

/-- Embeds `get_outfit_suggestions`:
`suggestions.get(undertone, {}).get(formality, {}).get(style, fallback)`. -/
def get_outfit_suggestions (undertone style formality : String) : List String :=
  (((((suggestions.lookup undertone).getD []).lookup formality).getD
      []).lookup style).getD outfit_fallback

/-- The record returned by `analyze_color`. -/
structure AnalyzeResult where
  undertone : String
  colors : List PaletteColor
  outfits : List String
deriving DecidableEq, Repr

/-- Embeds `analyze_color`.  Image decoding (`cv2.imread`) is external; its
outcome enters as `Option Grid`: `none` models a failed decode (the source
raises `ValueError("Could not load image")` before any classification),
`some img` the decoded RGB grid passed to the pipeline. -/
def analyze_color (decoded : Option Grid) (style formality : String) :
    Except String AnalyzeResult :=
  match decoded with
  | none => Except.error "Could not load image"
  | some img =>
      let undertone := detect_undertone img
      Except.ok ⟨undertone, get_color_palette undertone style,
                 get_outfit_suggestions undertone style formality⟩

/-! Helper lemmas shared by the claim theorems. -/

/-- The channel sum of a list all of whose pixels equal `p` is the length
times the channel value of `p`. -/
theorem sum_map_of_all_eq (ps : List Pixel) (p : Pixel) (f : Pixel → Nat)
    (h : ∀ q ∈ ps, q = p) : (ps.map f).sum = ps.length * f p := by
  induction ps with
  | nil => simp
  | cons a t ih =>
      have ha : a = p := h a (by simp)
      have ht : ∀ q ∈ t, q = p := fun q hq => h q (by simp [hq])
      simp only [List.map_cons, List.sum_cons, List.length_cons, ih ht, ha]
      ring

/-- The exact mean of a channel over a nonempty list of identical pixels is
that channel's value. -/
theorem avg_channel_of_all_eq (ps : List Pixel) (p : Pixel) (f : Pixel → Nat)
    (hne : ps ≠ []) (h : ∀ q ∈ ps, q = p) :
    ((ps.map f).sum : ℚ) / ps.length = f p := by
  have hlen0 : ps.length ≠ 0 := by
    simpa [List.length_eq_zero] using hne
  have hlen : (ps.length : ℚ) ≠ 0 := Nat.cast_ne_zero.mpr hlen0
  rw [sum_map_of_all_eq ps p f h]
  push_cast
  rw [mul_comm, mul_div_assoc, div_self hlen, mul_one]

/-- Claim C1: for every image whose skin-pixel selection is non-empty,
`detect_undertone` agrees with the ordered decision rule of the spec
(warm when mean R exceeds mean B by more than 10 AND mean R exceeds mean G;
otherwise cool when mean B exceeds mean R by more than 5; otherwise
neutral); in particular, when the warm margin holds but mean R ≤ mean G the
result is not forced warm. -/
theorem detect_undertone_ordered_rule (img : Grid) (h : skinPixels img ≠ []) :
    (detect_undertone img =
      if avg_r (skinPixels img) > avg_b (skinPixels img) + 10 ∧
          avg_r (skinPixels img) > avg_g (skinPixels img) then "warm"
      else if avg_b (skinPixels img) > avg_r (skinPixels img) + 5 then "cool"
      else "neutral") ∧
    (avg_r (skinPixels img) > avg_b (skinPixels img) + 10 →
      avg_r (skinPixels img) ≤ avg_g (skinPixels img) →
      detect_undertone img ≠ "warm") := by
  have hlen : ¬(skinPixels img).length = 0 := by
    simpa [List.length_eq_zero] using h
  simp only [detect_undertone, WARM_THRESHOLD, COOL_THRESHOLD]
  by_cases hw : avg_r (skinPixels img) > avg_b (skinPixels img) + 10
  · by_cases hg : avg_r (skinPixels img) > avg_g (skinPixels img)
    · simp [hlen, hw, hg]
    · have hc : ¬ avg_b (skinPixels img) > avg_r (skinPixels img) + 5 := by
        linarith
      simp [hlen, hw, hg, hc]
  · constructor
    · simp [hlen, hw]
    · intro hw' _
      exact absurd hw' hw

/-- Witness for C1: the ordered rule evaluated through the theorem at the
uniform one-pixel grid (200, 100, 50) yields "warm". -/
theorem detect_undertone_ordered_rule_witness :
    detect_undertone [[⟨200, 100, 50⟩]] = "warm" := by
  have h := detect_undertone_ordered_rule [[⟨200, 100, 50⟩]] (by decide)
  rw [h.1]
  norm_num [skinPixels, inSkinRange, avg_r, avg_g, avg_b]

/-- Claim C3: for every pixel grid in which zero pixels qualify for the
skin-pixel selection, `detect_undertone` returns "neutral". -/
theorem detect_undertone_empty_selection (img : Grid)
    (h : skinPixels img = []) : detect_undertone img = "neutral" := by
  simp [detect_undertone, h]

/-- Witness for C3: the one-pixel grid (0, 0, 0) has an empty skin-pixel
selection and is classified "neutral"; so is the empty grid. -/
theorem detect_undertone_empty_selection_witness :
    detect_undertone [[⟨0, 0, 0⟩]] = "neutral" ∧
    detect_undertone ([] : Grid) = "neutral" :=
  ⟨detect_undertone_empty_selection [[⟨0, 0, 0⟩]] rfl,
   detect_undertone_empty_selection ([] : Grid) rfl⟩

/-- Claim C4: a pixel is in the skin-pixel selection of a grid iff it is a
pixel of the grid and R ∈ [80,255], G ∈ [50,200] and B ∈ [40,180], all
bounds inclusive and all three conditions required simultaneously. -/
theorem skinPixels_mem_iff (img : Grid) (p : Pixel) :
    p ∈ skinPixels img ↔
      p ∈ img.flatten ∧
        ((80 ≤ p.r ∧ p.r ≤ 255) ∧ (50 ≤ p.g ∧ p.g ≤ 200) ∧
          (40 ≤ p.b ∧ p.b ≤ 180)) := by
  unfold skinPixels
  rw [List.mem_filter]
  constructor
  · rintro ⟨hmem, hin⟩
    exact ⟨hmem, by simpa [inSkinRange, and_assoc] using hin⟩
  · rintro ⟨hmem, hin⟩
    exact ⟨hmem, by simpa [inSkinRange, and_assoc] using hin⟩

/-- Claim C10: for every pixel grid, `detect_undertone` returns one of
exactly the three strings "warm", "cool", "neutral". -/
theorem detect_undertone_range (img : Grid) :
    detect_undertone img = "warm" ∨ detect_undertone img = "cool" ∨
      detect_undertone img = "neutral" := by
  simp only [detect_undertone]
  split_ifs <;> simp

/-- Claim C2 counterexample: the uniform pixel (R=100, G=150, B=200) is NOT
within the skin range (its blue channel 200 exceeds the upper bound 180),
so on a grid of such pixels the selection is empty and `detect_undertone`
returns "neutral", not "cool" as the claim states. -/
theorem uniform_100_150_200_not_cool :
    inSkinRange ⟨100, 150, 200⟩ = false ∧
    skinPixels [[⟨100, 150, 200⟩]] = [] ∧
    detect_undertone [[⟨100, 150, 200⟩]] = "neutral" ∧
    detect_undertone [[⟨100, 150, 200⟩]] ≠ "cool" := by
  have h3 : detect_undertone [[⟨100, 150, 200⟩]] = "neutral" := by
    norm_num [detect_undertone, skinPixels, inSkinRange]
  refine ⟨rfl, rfl, h3, ?_⟩
  rw [h3]
  decide

/-- Claim C2 (amended): for a nonempty grid all of whose pixels are the
uniform value (R=100, G=150, B=170), every pixel is within the skin range
and mean(B) > mean(R) + 5, so `detect_undertone` returns "cool". -/
theorem detect_undertone_uniform_cool (img : Grid)
    (hne : img.flatten ≠ [])
    (h : ∀ p ∈ img.flatten, p = (⟨100, 150, 170⟩ : Pixel)) :
    detect_undertone img = "cool" := by
  have hskin : skinPixels img = img.flatten := by
    unfold skinPixels
    refine List.filter_eq_self.mpr fun a ha => ?_
    rw [h a ha]
    rfl
  have hall : ∀ q ∈ skinPixels img, q = (⟨100, 150, 170⟩ : Pixel) := by
    rw [hskin]; exact h
  have hskinne : skinPixels img ≠ [] := by rw [hskin]; exact hne
  have hr : avg_r (skinPixels img) = 100 :=
    avg_channel_of_all_eq _ _ Pixel.r hskinne hall
  have hg : avg_g (skinPixels img) = 150 :=
    avg_channel_of_all_eq _ _ Pixel.g hskinne hall
  have hb : avg_b (skinPixels img) = 170 :=
    avg_channel_of_all_eq _ _ Pixel.b hskinne hall
  have hlen : ¬(skinPixels img).length = 0 := by
    simpa [List.length_eq_zero] using hskinne
  simp only [detect_undertone, WARM_THRESHOLD, COOL_THRESHOLD]
  rw [if_neg hlen, hr, hg, hb]
  norm_num

/-- Witness for the amended C2: the one-pixel grid of (100, 150, 170) is
classified "cool". -/
theorem detect_undertone_uniform_cool_witness :
    detect_undertone [[⟨100, 150, 170⟩]] = "cool" :=
  detect_undertone_uniform_cool [[⟨100, 150, 170⟩]] (by decide) (by decide)

/-- Claim C5: `detect_undertone` is total over well-formed grids (the
pipeline on a decoded grid always returns a result record whose undertone
is the classifier's output), while a decoding failure is surfaced by
`analyze_color` as the distinct "Could not load image" error before the
classifier is ever invoked. -/
theorem analyze_color_total_and_decode_error :
    (∀ style formality, analyze_color none style formality =
        Except.error "Could not load image") ∧
    (∀ img style formality, analyze_color (some img) style formality =
        Except.ok ⟨detect_undertone img,
          get_color_palette (detect_undertone img) style,
          get_outfit_suggestions (detect_undertone img) style formality⟩) :=
  ⟨fun _ _ => rfl, fun _ _ _ => rfl⟩

/-- Claim C6: for every (undertone, style, formality) combination not
present in the outfit table, `get_outfit_suggestions` returns the fixed
3-item generic fallback list. -/
theorem get_outfit_suggestions_fallback (undertone style formality : String)
    (h : (((((suggestions.lookup undertone).getD []).lookup formality).getD
        []).lookup style) = none) :
    get_outfit_suggestions undertone style formality = outfit_fallback ∧
    outfit_fallback.length = 3 :=
  ⟨by simp [get_outfit_suggestions, h], rfl⟩

/-- Witness for C6: the unknown undertone "olive" is absent from the table,
and the lookup yields the 3-item fallback. -/
theorem get_outfit_suggestions_fallback_witness :
    get_outfit_suggestions "olive" "subtle" "casual" = outfit_fallback ∧
    outfit_fallback.length = 3 :=
  get_outfit_suggestions_fallback "olive" "subtle" "casual" rfl

/-- Claim C7: `get_color_palette "warm" "subtle"` returns exactly 6
entries, the first being the color "Warm Beige" with hex code "#D4A574". -/
theorem get_color_palette_warm_subtle :
    (get_color_palette "warm" "subtle").length = 6 ∧
    (get_color_palette "warm" "subtle").head? =
      some ⟨"Warm Beige", "#D4A574"⟩ :=
  ⟨rfl, rfl⟩

/-- Claim C8: `detect_undertone` is deterministic: two invocations on the
same grid yield the same result (the embedding is a pure function of the
grid alone, so equal inputs give equal outputs). -/
theorem detect_undertone_deterministic (img₁ img₂ : Grid) (h : img₁ = img₂) :
    detect_undertone img₁ = detect_undertone img₂ := by rw [h]

/-- Witness for C8: two invocations on the grid of pixel (200, 100, 50)
agree. -/
theorem detect_undertone_deterministic_witness :
    detect_undertone [[⟨200, 100, 50⟩]] = detect_undertone [[⟨200, 100, 50⟩]] :=
  detect_undertone_deterministic [[⟨200, 100, 50⟩]] [[⟨200, 100, 50⟩]] rfl

/-- Claim C9: for every grid with a non-empty skin-pixel selection whose
mean red exceeds mean blue by more than 10, `detect_undertone` never
returns "cool"; when additionally mean R ≤ mean G the result is "neutral",
so skipping the cool test inside the warm branch cannot change the outcome
relative to an ordered warm-then-cool-then-neutral rule. -/
theorem detect_undertone_warm_margin_not_cool (img : Grid)
    (hne : skinPixels img ≠ [])
    (hw : avg_r (skinPixels img) > avg_b (skinPixels img) + 10) :
    detect_undertone img ≠ "cool" ∧
    (avg_r (skinPixels img) ≤ avg_g (skinPixels img) →
      detect_undertone img = "neutral") := by
  have hlen : ¬(skinPixels img).length = 0 := by
    simpa [List.length_eq_zero] using hne
  constructor
  · simp only [detect_undertone, WARM_THRESHOLD]
    rw [if_neg hlen, if_pos hw]
    split <;> simp
  · intro hg
    simp only [detect_undertone, WARM_THRESHOLD]
    rw [if_neg hlen, if_pos hw, if_neg (not_lt.mpr hg)]

/-- Witness for C9: the grid of pixel (150, 160, 90) has warm margin
150 > 90 + 10 yet mean R = 150 ≤ 160 = mean G, and is classified
"neutral", not "cool". -/
theorem detect_undertone_warm_margin_not_cool_witness :
    detect_undertone [[⟨150, 160, 90⟩]] ≠ "cool" ∧
    detect_undertone [[⟨150, 160, 90⟩]] = "neutral" := by
  have h := detect_undertone_warm_margin_not_cool [[⟨150, 160, 90⟩]]
    (by decide) (by norm_num [skinPixels, inSkinRange, avg_r, avg_b])
  exact ⟨h.1, h.2 (by norm_num [skinPixels, inSkinRange, avg_r, avg_g])⟩

end ColorAnalyzer
